import Mathlib

/-!
Shallow embedding of `packages/@aws-cdk/aws-events-targets/lib/ecs-task.ts`.

The file models the `EcsTask` event target: its construction-time validation
and security-group resolution (the class constructor) and its bind-time
permission computation and launch-parameter assembly (`EcsTask.bind`).
External collaborators (`ecs.TaskDefinition`, `ec2.IVpc`, IAM policy
statements, `SubnetSelection`) are embedded as plain data carrying exactly
the attributes the source reads from them.  The TypeScript construct tree is
embedded as explicit node state on the task definition: the child named
`SecurityGroup` (for `node.tryFindChild`) and a warning list (for
`node.addWarning`), plus a fresh-identifier counter used when a new
security group resource is allocated.
-/

/-- An `ec2.ISecurityGroup` reference; the source only reads its identifier. -/
structure SecurityGroup where
  securityGroupId : String
deriving DecidableEq, Repr

/-- An `iam.IRole` reference; the source only reads its ARN. -/
structure Role where
  roleArn : String
deriving DecidableEq, Repr

/-- The `ecs.NetworkMode` enumeration. -/
inductive NetworkMode where
  | NONE
  | BRIDGE
  | AWS_VPC
  | HOST
deriving DecidableEq, Repr

/-- The `ec2.SubnetType` enumeration. -/
inductive SubnetType where
  | ISOLATED
  | PRIVATE
  | PUBLIC
deriving DecidableEq, Repr

/-- An `ec2.SubnetSelection`: an optional subnet-type preference (the only
field of the selection the source inspects directly). -/
structure SubnetSelection where
  subnetType : Option SubnetType
deriving DecidableEq, Repr

/-- Modelled from the spec: the cluster's network context (`ec2.IVpc`, an
external collaborator, not under src) is "capable of resolving a
subnet-selection preference into concrete subnet identifiers"; we record the
subnet identifiers per subnet type. -/
structure Vpc where
  publicSubnetIds : List String
  privateSubnetIds : List String
  isolatedSubnetIds : List String
deriving DecidableEq, Repr

/-- Modelled from the spec: `vpc.selectSubnets(selection).subnetIds` resolves
a subnet-selection preference into the concrete subnet identifiers of the
matching subnet group (the external collaborator defaults to private
subnets when no type is given). -/
def Vpc.selectSubnets (vpc : Vpc) (s : SubnetSelection) : List String :=
  match s.subnetType with
  | some SubnetType.PUBLIC => vpc.publicSubnetIds
  | some SubnetType.PRIVATE => vpc.privateSubnetIds
  | some SubnetType.ISOLATED => vpc.isolatedSubnetIds
  | none => vpc.privateSubnetIds

/-- An `ecs.ICluster` reference: identifying ARN plus network context. -/
structure Cluster where
  clusterArn : String
  vpc : Vpc
deriving DecidableEq, Repr

/-- An `ecs.TaskDefinition` together with its construct-node state.
`sgChild` is the child construct named `SecurityGroup` looked up by
`node.tryFindChild`; `warnings` records `node.addWarning` messages;
`nextSgId` is the fresh-identifier counter consumed when a new security
group resource is allocated as a child of the task definition. -/
structure TaskDefinition where
  taskDefinitionArn : String
  networkMode : NetworkMode
  isEc2Compatible : Bool
  isFargateCompatible : Bool
  executionRole : Option Role
  taskRole : Role
  sgChild : Option SecurityGroup
  warnings : List String
  nextSgId : Nat
deriving DecidableEq, Repr

/-- Modelled from the spec: a `ContainerOverride` entry
(`./ecs-task-properties`, not under src) is a "container name plus override
fields (command, environment, resource limits) — opaque pass-through data,
not interpreted by the core". -/
structure ContainerOverride where
  containerName : String
  command : Option (List String)
  environment : Option (List (String × String))
  cpu : Option Nat
  memoryLimit : Option Nat
  memoryReservation : Option Nat
deriving DecidableEq, Repr

/-- A container-override entry as it appears in the invocation payload:
the `containerName` key is renamed to `name`, every other field carried
unchanged. -/
structure ContainerOverrideOut where
  name : String
  command : Option (List String)
  environment : Option (List (String × String))
  cpu : Option Nat
  memoryLimit : Option Nat
  memoryReservation : Option Nat
deriving DecidableEq, Repr

/-- The `EcsTaskProps` input record. -/
structure EcsTaskProps where
  cluster : Cluster
  taskDefinition : TaskDefinition
  taskCount : Option Nat
  containerOverrides : Option (List ContainerOverride)
  subnetSelection : Option SubnetSelection
  securityGroup : Option SecurityGroup
  securityGroups : Option (List SecurityGroup)
deriving DecidableEq, Repr

/-- The state of a constructed `EcsTask` object: the retained `props`
(whose task definition aliases the possibly-updated construct node), the
public security-group fields, and the private `cluster`, `taskDefinition`
and `taskCount` fields. -/
structure EcsTask where
  props : EcsTaskProps
  securityGroup : Option SecurityGroup
  securityGroups : Option (List SecurityGroup)
  cluster : Cluster
  taskDefinition : TaskDefinition
  taskCount : Nat
deriving DecidableEq, Repr

/-- `new ec2.SecurityGroup(taskDefinition, 'SecurityGroup', { vpc })`:
allocation of a fresh security-group resource; its identifier is drawn from
the task definition node's fresh-identifier counter. -/
def newSecurityGroup (n : Nat) : SecurityGroup :=
  { securityGroupId := "generated-sg-" ++ toString n }

/-- The `EcsTask` constructor (`ecs-task.ts`, lines 90-114): mutual-exclusion
check on the two security-group inputs, task-count defaulting, and
construction-time security-group resolution, with the task definition's
construct node threaded through explicitly. -/
def EcsTask.construct (props : EcsTaskProps) : Except String EcsTask :=
  if props.securityGroup.isSome && props.securityGroups.isSome then
    Except.error "Only one of SecurityGroup or SecurityGroups can be populated."
  else
    let cluster := props.cluster
    let td := props.taskDefinition
    let taskCount := match props.taskCount with
      | some n => n
      | none => 1
    if td.networkMode = NetworkMode.AWS_VPC then
      match props.securityGroups with
      | some sgs =>
          Except.ok { props := props, securityGroup := none, securityGroups := some sgs,
                      cluster := cluster, taskDefinition := td, taskCount := taskCount }
      | none =>
          match (match props.securityGroup with
                 | some sg => some sg
                 | none => td.sgChild) with
          | some sg =>
              Except.ok { props := props, securityGroup := some sg,
                          securityGroups := some [sg],
                          cluster := cluster, taskDefinition := td, taskCount := taskCount }
          | none =>
              let sg := newSecurityGroup td.nextSgId
              let td2 := { td with sgChild := some sg, nextSgId := td.nextSgId + 1 }
              Except.ok { props := { props with taskDefinition := td2 },
                          securityGroup := some sg, securityGroups := some [sg],
                          cluster := cluster, taskDefinition := td2, taskCount := taskCount }
    else
      let td2 :=
        if props.securityGroup.isSome || props.securityGroups.isSome then
          { td with warnings :=
              td.warnings ++ ["security groups are ignored when network mode is not awsvpc"] }
        else td
      Except.ok { props := { props with taskDefinition := td2 },
                  securityGroup := none, securityGroups := none,
                  cluster := cluster, taskDefinition := td2, taskCount := taskCount }

/-- An `iam.PolicyStatement` as the source builds it: an action list, a
resource ARN list, and an optional `ArnEquals` condition entry
(condition key paired with the ARN it must equal). -/
structure PolicyStatement where
  actions : List String
  resources : List String
  arnEqualsCondition : Option (String × String)
deriving DecidableEq, Repr

/-- The `awsVpcConfiguration` part of the bind output's network
configuration. -/
structure AwsVpcConfiguration where
  subnets : List String
  assignPublicIp : String
  securityGroups : Option (List String)
deriving DecidableEq, Repr

/-- The `events.CfnRule.EcsParametersProperty` launch parameters assembled
by bind; `launchType` and `networkConfiguration` are absent for non-awsvpc
task definitions. -/
structure EcsParameters where
  taskCount : Nat
  taskDefinitionArn : String
  launchType : Option String
  networkConfiguration : Option AwsVpcConfiguration
deriving DecidableEq, Repr

/-- The `events.RuleTargetConfig` bind output.  Modelled from the spec for
the role field: `singletonEventRole` (`./util`, not under src) returns an
IAM role reference carrying the supplied policy statements, so the role is
embedded as the ordered statement list itself (`roleStatements`).
`inputContainerOverrides` is the `containerOverrides` field of the
invocation input payload built from `RuleTargetInput.fromObject`. -/
structure RuleTargetConfig where
  id : String
  arn : String
  roleStatements : List PolicyStatement
  ecsParameters : EcsParameters
  inputContainerOverrides : Option (List ContainerOverrideOut)
deriving DecidableEq, Repr

/-- The subnet selection bind resolves to:
`this.props.subnetSelection || { subnetType: ec2.SubnetType.PRIVATE }`. -/
def resolvedSubnetSelection (props : EcsTaskProps) : SubnetSelection :=
  match props.subnetSelection with
  | some s => s
  | none => { subnetType := some SubnetType.PRIVATE }

/-- The public-IP assignment flag:
`subnetSelection.subnetType === ec2.SubnetType.PUBLIC ? 'ENABLED' : 'DISABLED'`. -/
def assignPublicIpFor (s : SubnetSelection) : String :=
  if s.subnetType = some SubnetType.PUBLIC then "ENABLED" else "DISABLED"

/-- The container-override rename applied per entry:
`({ containerName, ...overrides }) => ({ name: containerName, ...overrides })`. -/
def renameContainerOverride (o : ContainerOverride) : ContainerOverrideOut :=
  { name := o.containerName, command := o.command, environment := o.environment,
    cpu := o.cpu, memoryLimit := o.memoryLimit, memoryReservation := o.memoryReservation }

/-- `EcsTask.bind` (`ecs-task.ts`, lines 119-178): builds the IAM policy
statements, renames the container overrides into the input payload,
resolves the subnet selection and public-IP flag, and assembles the launch
parameters, including launch type and network configuration exactly when
the task definition uses awsvpc networking. -/
def EcsTask.bind (t : EcsTask) : RuleTargetConfig :=
  let policyStatements : List PolicyStatement :=
    [ { actions := ["ecs:RunTask"],
        resources := [t.taskDefinition.taskDefinitionArn],
        arnEqualsCondition := some ("ecs:cluster", t.cluster.clusterArn) } ]
    ++ (match t.taskDefinition.executionRole with
        | some r =>
            [ { actions := ["iam:PassRole"], resources := [r.roleArn],
                arnEqualsCondition := none } ]
        | none => [])
    ++ (if t.taskDefinition.isFargateCompatible then
          [ { actions := ["iam:PassRole"],
              resources := [t.taskDefinition.taskRole.roleArn],
              arnEqualsCondition := none } ]
        else [])
  let arn := t.cluster.clusterArn
  let containerOverrides := match t.props.containerOverrides with
    | some os => some (os.map renameContainerOverride)
    | none => none
  let taskCount := t.taskCount
  let taskDefinitionArn := t.taskDefinition.taskDefinitionArn
  let subnetSelection := resolvedSubnetSelection t.props
  let assignPublicIp := assignPublicIpFor subnetSelection
  let ecsParameters : EcsParameters :=
    if t.taskDefinition.networkMode = NetworkMode.AWS_VPC then
      { taskCount := taskCount, taskDefinitionArn := taskDefinitionArn,
        launchType := some (if t.taskDefinition.isEc2Compatible then "EC2" else "FARGATE"),
        networkConfiguration := some
          { subnets := t.props.cluster.vpc.selectSubnets subnetSelection,
            assignPublicIp := assignPublicIp,
            securityGroups := match t.securityGroups with
              | some sgs => some (sgs.map SecurityGroup.securityGroupId)
              | none => none } }
    else
      { taskCount := taskCount, taskDefinitionArn := taskDefinitionArn,
        launchType := none, networkConfiguration := none }
  { id := "", arn := arn, roleStatements := policyStatements,
    ecsParameters := ecsParameters, inputContainerOverrides := containerOverrides }

/-! ### Concrete fixtures used by counterexamples and witnesses -/

/-- A concrete VPC fixture. -/
def sampleVpc : Vpc :=
  { publicSubnetIds := ["subnet-pub-1"], privateSubnetIds := ["subnet-priv-1"],
    isolatedSubnetIds := ["subnet-iso-1"] }

/-- A concrete cluster fixture. -/
def sampleCluster : Cluster :=
  { clusterArn := "arn:aws:ecs:cluster-1", vpc := sampleVpc }

/-- A concrete bridge-mode task definition fixture. -/
def bridgeTaskDef : TaskDefinition :=
  { taskDefinitionArn := "arn:aws:ecs:taskdef-bridge", networkMode := NetworkMode.BRIDGE,
    isEc2Compatible := true, isFargateCompatible := false, executionRole := none,
    taskRole := { roleArn := "arn:aws:iam:taskrole" }, sgChild := none,
    warnings := [], nextSgId := 0 }

/-- A concrete awsvpc-mode task definition fixture with no pre-existing
security-group child. -/
def awsVpcTaskDef : TaskDefinition :=
  { taskDefinitionArn := "arn:aws:ecs:taskdef-awsvpc", networkMode := NetworkMode.AWS_VPC,
    isEc2Compatible := true, isFargateCompatible := true,
    executionRole := some { roleArn := "arn:aws:iam:execrole" },
    taskRole := { roleArn := "arn:aws:iam:taskrole" }, sgChild := none,
    warnings := [], nextSgId := 0 }

/-- A props fixture with no optional input supplied, over the bridge-mode
task definition. -/
def bridgeProps : EcsTaskProps :=
  { cluster := sampleCluster, taskDefinition := bridgeTaskDef, taskCount := none,
    containerOverrides := none, subnetSelection := none,
    securityGroup := none, securityGroups := none }

/-- A props fixture with no optional input supplied, over the awsvpc-mode
task definition. -/
def awsVpcProps : EcsTaskProps :=
  { cluster := sampleCluster, taskDefinition := awsVpcTaskDef, taskCount := none,
    containerOverrides := none, subnetSelection := none,
    securityGroup := none, securityGroups := none }

/-- The task count carried into the bind output by an accepted
construction. -/
def boundTaskCount (p : EcsTaskProps) : Except String Nat :=
  match EcsTask.construct p with
  | Except.ok t => Except.ok (EcsTask.bind t).ecsParameters.taskCount
  | Except.error e => Except.error e


/-- The task object constructed from `bridgeProps`. -/
def bridgeTask : EcsTask :=
  { props := bridgeProps, securityGroup := none, securityGroups := none,
    cluster := sampleCluster, taskDefinition := bridgeTaskDef, taskCount := 1 }


/-- The security group created when constructing from `awsVpcProps`. -/
def createdSg : SecurityGroup := newSecurityGroup 0

/-- The task definition node after construction from `awsVpcProps`: the
created security group is registered as the `SecurityGroup` child and the
fresh-identifier counter has advanced. -/
def awsVpcTaskDefAfter : TaskDefinition :=
  { awsVpcTaskDef with sgChild := some createdSg, nextSgId := 1 }

/-- The task object constructed from `awsVpcProps`. -/
def awsVpcTask : EcsTask :=
  { props := { awsVpcProps with taskDefinition := awsVpcTaskDefAfter },
    securityGroup := some createdSg, securityGroups := some [createdSg],
    cluster := sampleCluster, taskDefinition := awsVpcTaskDefAfter, taskCount := 1 }


/-- A props fixture supplying both the legacy security group and the
explicit security-group list. -/
def bothSgProps : EcsTaskProps :=
  { bridgeProps with securityGroup := some { securityGroupId := "sg-legacy" },
                     securityGroups := some [{ securityGroupId := "sg-a" }] }

/-- The legacy security-group field of an accepted construction. -/
def constructedSg (p : EcsTaskProps) : Except String (Option SecurityGroup) :=
  Except.map EcsTask.securityGroup (EcsTask.construct p)

/-- The resolved security-group list of an accepted construction. -/
def constructedSgs (p : EcsTaskProps) : Except String (Option (List SecurityGroup)) :=
  Except.map EcsTask.securityGroups (EcsTask.construct p)

/-- The warnings recorded on the task definition by an accepted
construction. -/
def constructedWarnings (p : EcsTaskProps) : Except String (List String) :=
  Except.map (TaskDefinition.warnings ∘ EcsTask.taskDefinition) (EcsTask.construct p)

/-- A props fixture over the bridge-mode task definition supplying only the
legacy security group. -/
def bridgeLegacySgProps : EcsTaskProps :=
  { bridgeProps with securityGroup := some { securityGroupId := "sg-legacy" } }

/-- The singleton resolved security-group list. -/
def singletonList (g : SecurityGroup) : List SecurityGroup := [g]

/-- The props of a second construction run against the task definition left
behind by a first one. -/
def secondProps (p : EcsTaskProps) (t : EcsTask) : EcsTaskProps :=
  { p with taskDefinition := t.taskDefinition }

/-- The expected result of that second run: the very same task object —
same security group, same task-definition node, in particular the same
`sgChild` and the same fresh-identifier counter, so no second security
group is created — holding the second run's props. -/
def secondTask (p : EcsTaskProps) (t : EcsTask) : EcsTask :=
  { t with props := secondProps p t }

/-! ### Helper lemmas -/

/-- The bind output's launch parameters always carry the constructed task
count. -/
theorem bind_taskCount_eq (t : EcsTask) :
    (EcsTask.bind t).ecsParameters.taskCount = t.taskCount := by
  unfold EcsTask.bind
  dsimp only
  split <;> rfl

/-- An accepted construction stores the supplied task count, defaulting to
1 when none was given. -/
theorem construct_taskCount (p : EcsTaskProps) (t : EcsTask)
    (hok : EcsTask.construct p = Except.ok t) :
    t.taskCount = (match p.taskCount with | some n => n | none => 1) := by
  obtain ⟨cl, td, tc, co, ss, sg, sgs⟩ := p
  obtain ⟨arn, nm, e2, fg, er, tr, sgc, w, nid⟩ := td
  cases sg <;> cases sgs <;> cases tc <;> cases nm <;> cases sgc <;>
    simp [EcsTask.construct] at hok <;> (subst hok; rfl)

/-- Claim C1, counterexample: the constructor performs no lower-bound check
on the supplied task count, so a construction supplying a task count of 0
is accepted and the bind output carries task count 0, which is below 1. -/
theorem taskCount_zero_accepted :
    boundTaskCount { bridgeProps with taskCount := some 0 } = Except.ok 0 ∧ 0 < 1 := by
  exact ⟨by rfl, by decide⟩


/-- Claim C1 (amended): for every accepted construction, the task count
carried into the bind output equals the supplied task count when one was
given — the constructor performs no lower-bound check, so a supplied 0 is
accepted and carried through — and defaults to 1, which is at least 1, when
none was given. -/
theorem bind_taskCount_carried (p : EcsTaskProps) (t : EcsTask)
    (hok : EcsTask.construct p = Except.ok t) :
    (EcsTask.bind t).ecsParameters.taskCount =
      (match p.taskCount with | some n => n | none => 1)
    ∧ (p.taskCount = none → 1 ≤ (EcsTask.bind t).ecsParameters.taskCount) := by
  have h := construct_taskCount p t hok
  rw [bind_taskCount_eq, h]
  refine ⟨rfl, fun hn => ?_⟩
  simp [hn]

/-- Witness for the amended claim C1, at a concrete input with no supplied
task count. -/
theorem bind_taskCount_carried_witness :
    (EcsTask.bind bridgeTask).ecsParameters.taskCount =
      (match bridgeProps.taskCount with | some n => n | none => 1)
    ∧ (bridgeProps.taskCount = none →
        1 ≤ (EcsTask.bind bridgeTask).ecsParameters.taskCount) :=
  bind_taskCount_carried bridgeProps bridgeTask (by rfl)


/-- Claim C3, counterexample: the error raised by the constructor carries a
trailing period — `Only one of SecurityGroup or SecurityGroups can be
populated.` — so it is not the exact string quoted by the claim. -/
theorem bothSg_error_has_period :
    EcsTask.construct bothSgProps =
      Except.error "Only one of SecurityGroup or SecurityGroups can be populated."
    ∧ "Only one of SecurityGroup or SecurityGroups can be populated." ≠
        "Only one of SecurityGroup or SecurityGroups can be populated" :=
  ⟨rfl, by decide⟩

/-- Claim C3 (amended): whenever both the explicit security-group list and
the legacy single security-group field are supplied, construction fails
with the error `Only one of SecurityGroup or SecurityGroups can be
populated.` (trailing period included).  The check precedes all
security-group resolution logic — the theorem places no constraint on the
network mode or any other input — and no object is produced. -/
theorem bothSg_construction_fails (p : EcsTaskProps)
    (h1 : p.securityGroup.isSome) (h2 : p.securityGroups.isSome) :
    EcsTask.construct p =
      Except.error "Only one of SecurityGroup or SecurityGroups can be populated." := by
  unfold EcsTask.construct
  simp [h1, h2]

/-- Witness for the amended claim C3 at a concrete input. -/
theorem bothSg_construction_fails_witness :
    EcsTask.construct bothSgProps =
      Except.error "Only one of SecurityGroup or SecurityGroups can be populated." :=
  bothSg_construction_fails bothSgProps (by rfl) (by rfl)

/-- Claim C5: for every task with an awsvpc-mode task definition, the bind
output's launch type is `EC2` whenever the task definition is
EC2-compatible — regardless of Fargate compatibility — and `FARGATE`
exactly when EC2 compatibility is absent. -/
theorem awsvpc_launch_type (t : EcsTask)
    (h : t.taskDefinition.networkMode = NetworkMode.AWS_VPC) :
    (EcsTask.bind t).ecsParameters.launchType =
      some (if t.taskDefinition.isEc2Compatible then "EC2" else "FARGATE") := by
  unfold EcsTask.bind
  simp [h]

/-- Witness for claim C5 at the concrete awsvpc task object (EC2- and
Fargate-compatible, so the launch type is `EC2`). -/
theorem awsvpc_launch_type_witness :
    (EcsTask.bind awsVpcTask).ecsParameters.launchType =
      some (if awsVpcTask.taskDefinition.isEc2Compatible then "EC2" else "FARGATE") :=
  awsvpc_launch_type awsVpcTask (by rfl)

/-- Claim C2: the permission set in the bind output is the ecs:RunTask
statement — scoped to the task-definition ARN, with an ArnEquals condition
on the cluster ARN — followed by an iam:PassRole statement for the
execution role's ARN exactly when an execution role is declared, followed
by an iam:PassRole statement for the task role's ARN exactly when the
task definition is Fargate compatible; hence over the four
(execution-role × Fargate) combinations its length is 1, 2, 2 or 3. -/
theorem bind_permission_set (t : EcsTask) :
    (EcsTask.bind t).roleStatements =
      { actions := ["ecs:RunTask"],
        resources := [t.taskDefinition.taskDefinitionArn],
        arnEqualsCondition := some ("ecs:cluster", t.cluster.clusterArn) }
      :: ((match t.taskDefinition.executionRole with
           | some r => [{ actions := ["iam:PassRole"], resources := [r.roleArn],
                          arnEqualsCondition := none }]
           | none => [])
          ++ (if t.taskDefinition.isFargateCompatible then
                [{ actions := ["iam:PassRole"],
                   resources := [t.taskDefinition.taskRole.roleArn],
                   arnEqualsCondition := none }]
              else []))
    ∧ (EcsTask.bind t).roleStatements.length =
        1 + (if t.taskDefinition.executionRole.isSome then 1 else 0)
          + (if t.taskDefinition.isFargateCompatible then 1 else 0) := by
  constructor
  · unfold EcsTask.bind
    rfl
  · unfold EcsTask.bind
    dsimp only
    cases h : t.taskDefinition.executionRole <;>
      cases hf : t.taskDefinition.isFargateCompatible <;> simp [h, hf]

/-- Claim C6: the public-IP flag is ENABLED exactly when the resolved
subnet selection's type is public, DISABLED for every other selection
type; an unspecified selection defaults to private subnets and hence to
DISABLED; and the flag inside the bind output's network configuration,
whenever that configuration is present, is exactly this derived flag. -/
theorem public_ip_flag (t : EcsTask) :
    (assignPublicIpFor (resolvedSubnetSelection t.props) = "ENABLED" ↔
      (resolvedSubnetSelection t.props).subnetType = some SubnetType.PUBLIC)
    ∧ ((resolvedSubnetSelection t.props).subnetType ≠ some SubnetType.PUBLIC →
        assignPublicIpFor (resolvedSubnetSelection t.props) = "DISABLED")
    ∧ (t.props.subnetSelection = none →
        resolvedSubnetSelection t.props = { subnetType := some SubnetType.PRIVATE }
        ∧ assignPublicIpFor (resolvedSubnetSelection t.props) = "DISABLED")
    ∧ (∀ nc, (EcsTask.bind t).ecsParameters.networkConfiguration = some nc →
        nc.assignPublicIp = assignPublicIpFor (resolvedSubnetSelection t.props)) := by
  refine ⟨?_, ?_, ?_, ?_⟩
  · unfold assignPublicIpFor
    split <;> simp_all
  · intro h
    unfold assignPublicIpFor
    simp [h]
  · intro h
    simp [resolvedSubnetSelection, assignPublicIpFor, h]
  · intro nc hnc
    unfold EcsTask.bind at hnc
    dsimp only at hnc
    split at hnc
    · cases hnc; rfl
    · cases hnc

/-- Witness for claim C6 at a concrete input with no supplied subnet
selection: the resolution defaults to private subnets, and the flag is
DISABLED. -/
theorem public_ip_flag_witness :
    resolvedSubnetSelection bridgeTask.props = { subnetType := some SubnetType.PRIVATE }
    ∧ assignPublicIpFor (resolvedSubnetSelection bridgeTask.props) = "DISABLED" :=
  (public_ip_flag bridgeTask).2.2.1 rfl

/-- Claim C7: the launch parameters of the bind output always carry the
task count and the task-definition ARN; for non-awsvpc task definitions
they consist of exactly these two fields, launch type and network
configuration being absent; for awsvpc task definitions both are
present. -/
theorem launch_parameters_shape (t : EcsTask) :
    (EcsTask.bind t).ecsParameters.taskCount = t.taskCount
    ∧ (EcsTask.bind t).ecsParameters.taskDefinitionArn =
        t.taskDefinition.taskDefinitionArn
    ∧ (t.taskDefinition.networkMode ≠ NetworkMode.AWS_VPC →
        (EcsTask.bind t).ecsParameters =
          { taskCount := t.taskCount,
            taskDefinitionArn := t.taskDefinition.taskDefinitionArn,
            launchType := none, networkConfiguration := none })
    ∧ (t.taskDefinition.networkMode = NetworkMode.AWS_VPC →
        ((EcsTask.bind t).ecsParameters.launchType).isSome
        ∧ ((EcsTask.bind t).ecsParameters.networkConfiguration).isSome) := by
  unfold EcsTask.bind
  dsimp only
  by_cases h : t.taskDefinition.networkMode = NetworkMode.AWS_VPC <;> simp [h]

/-- Witness for claim C7 at the concrete bridge-mode task object: the
launch parameters are exactly task count and ARN. -/
theorem launch_parameters_shape_witness :
    (EcsTask.bind bridgeTask).ecsParameters =
      { taskCount := bridgeTask.taskCount,
        taskDefinitionArn := bridgeTask.taskDefinition.taskDefinitionArn,
        launchType := none, networkConfiguration := none } :=
  (launch_parameters_shape bridgeTask).2.2.1 (by decide)

/-- Claim C9: the container-override payload in the bind output maps the
supplied entries in order, renaming each entry's containerName key to
name and carrying every other override field unchanged; when no overrides
were supplied, the payload's override list is absent. -/
theorem container_overrides_payload (t : EcsTask) :
    (EcsTask.bind t).inputContainerOverrides =
      (match t.props.containerOverrides with
       | some os => some (os.map fun o =>
           { name := o.containerName, command := o.command,
             environment := o.environment, cpu := o.cpu,
             memoryLimit := o.memoryLimit,
             memoryReservation := o.memoryReservation })
       | none => none)
    ∧ (t.props.containerOverrides = none →
        (EcsTask.bind t).inputContainerOverrides = none) := by
  constructor
  · unfold EcsTask.bind renameContainerOverride
    rfl
  · intro h
    simp [EcsTask.bind, h]

/-- Witness for claim C9 at a concrete input with no overrides supplied:
the payload's override list is absent. -/
theorem container_overrides_payload_witness :
    (EcsTask.bind bridgeTask).inputContainerOverrides = none :=
  (container_overrides_payload bridgeTask).2 rfl


/-- Claim C8, counterexample: for a bridge-mode (non-awsvpc) task
definition with both security-group inputs supplied, construction does not
succeed at all — it fails with the mutual-exclusion error, and no warning
is recorded — refuting the claim's "construction still succeeds regardless
of which security-group inputs were supplied". -/
theorem nonvpc_both_sg_construction_fails :
    bothSgProps.taskDefinition.networkMode ≠ NetworkMode.AWS_VPC
    ∧ bothSgProps.securityGroup.isSome
    ∧ bothSgProps.securityGroups.isSome
    ∧ EcsTask.construct bothSgProps =
        Except.error "Only one of SecurityGroup or SecurityGroups can be populated." :=
  ⟨by decide, by rfl, by rfl, by rfl⟩

/-- Claim C8 (amended): for every task definition whose network mode is not
awsvpc, provided the explicit security-group list and the legacy field are
not both supplied (that combination is the construction-time fatal error of
claim C3), construction succeeds, both the resolved security-group list and
the legacy single security-group field are absent, and the non-fatal
warning `security groups are ignored when network mode is not awsvpc` is
recorded on the task definition exactly when a security-group input was
supplied. -/
theorem nonvpc_sg_ignored (p : EcsTaskProps)
    (hmode : p.taskDefinition.networkMode ≠ NetworkMode.AWS_VPC)
    (hnotboth : ¬(p.securityGroup.isSome ∧ p.securityGroups.isSome)) :
    constructedSg p = Except.ok none
    ∧ constructedSgs p = Except.ok none
    ∧ constructedWarnings p = Except.ok
        (if p.securityGroup.isSome || p.securityGroups.isSome then
          p.taskDefinition.warnings ++
            ["security groups are ignored when network mode is not awsvpc"]
        else p.taskDefinition.warnings) := by
  have hb : (p.securityGroup.isSome && p.securityGroups.isSome) = false := by
    cases hg : p.securityGroup.isSome <;> cases hgs : p.securityGroups.isSome <;>
      simp_all
  unfold constructedSg constructedSgs constructedWarnings EcsTask.construct
  rw [hb]
  simp only [Bool.false_eq_true, if_false, if_neg hmode]
  refine ⟨rfl, rfl, ?_⟩
  split <;> rfl


/-- Witness for the amended claim C8 at a concrete non-awsvpc input
supplying only the legacy security group: construction succeeds, both
security-group fields stay absent, and the warning is recorded. -/
theorem nonvpc_sg_ignored_witness :
    constructedSg bridgeLegacySgProps = Except.ok none
    ∧ constructedSgs bridgeLegacySgProps = Except.ok none
    ∧ constructedWarnings bridgeLegacySgProps = Except.ok
        (if bridgeLegacySgProps.securityGroup.isSome ||
            bridgeLegacySgProps.securityGroups.isSome then
          bridgeLegacySgProps.taskDefinition.warnings ++
            ["security groups are ignored when network mode is not awsvpc"]
        else bridgeLegacySgProps.taskDefinition.warnings) :=
  nonvpc_sg_ignored bridgeLegacySgProps (by decide) (by decide)


/-- Claim C4: for every awsvpc task definition with no security-group input,
after construction the legacy field and the resolved list's sole element
are the same security group — namely the task definition's `SecurityGroup`
child, which is now always present — and running the construction a second
time against the resulting task definition finds that child and reuses it,
returning an identical task object with an unchanged node (no second
security-group creation). -/
theorem awsvpc_default_sg (p : EcsTaskProps) (t : EcsTask)
    (hmode : p.taskDefinition.networkMode = NetworkMode.AWS_VPC)
    (hsg : p.securityGroup = none) (hsgs : p.securityGroups = none)
    (hok : EcsTask.construct p = Except.ok t) :
    t.securityGroup = t.taskDefinition.sgChild
    ∧ t.taskDefinition.sgChild.isSome
    ∧ t.securityGroups = Option.map singletonList t.securityGroup
    ∧ EcsTask.construct (secondProps p t) = Except.ok (secondTask p t) := by
  obtain ⟨cl, td, tc, co, ss, sg, sgs⟩ := p
  obtain ⟨arn, nm, e2, fg, er, tr, sgc, w, nid⟩ := td
  dsimp only at hmode hsg hsgs
  subst hsg hsgs hmode
  cases tc <;> cases sgc <;>
    simp [EcsTask.construct] at hok <;>
    (subst hok; exact ⟨rfl, rfl, rfl, rfl⟩)

/-- Witness for claim C4 at the concrete awsvpc input with no
security-group input supplied. -/
theorem awsvpc_default_sg_witness :
    awsVpcTask.securityGroup = awsVpcTask.taskDefinition.sgChild
    ∧ awsVpcTask.taskDefinition.sgChild.isSome
    ∧ awsVpcTask.securityGroups = Option.map singletonList awsVpcTask.securityGroup
    ∧ EcsTask.construct (secondProps awsVpcProps awsVpcTask) =
        Except.ok (secondTask awsVpcProps awsVpcTask) :=
  awsvpc_default_sg awsVpcProps awsVpcTask rfl rfl rfl (by rfl)

/-- Claim C10: for every accepted construction over an awsvpc task
definition, the resolved security-group list is defined — the explicit
list verbatim when one was supplied, otherwise the singleton of the
legacy/looked-up/created group — and the bind output's network
configuration is present with its security-group id list equal to the
resolved list's identifiers, hence never absent. -/
theorem awsvpc_sg_never_absent (p : EcsTaskProps) (t : EcsTask)
    (hmode : p.taskDefinition.networkMode = NetworkMode.AWS_VPC)
    (hok : EcsTask.construct p = Except.ok t) :
    t.securityGroups.isSome
    ∧ t.securityGroups = (match p.securityGroups with
        | some gs => some gs
        | none => Option.map singletonList t.securityGroup)
    ∧ ((EcsTask.bind t).ecsParameters.networkConfiguration).isSome
    ∧ Option.map AwsVpcConfiguration.securityGroups
        ((EcsTask.bind t).ecsParameters.networkConfiguration) =
      some (Option.map (List.map SecurityGroup.securityGroupId) t.securityGroups) := by
  obtain ⟨cl, td, tc, co, ss, sg, sgs⟩ := p
  obtain ⟨arn, nm, e2, fg, er, tr, sgc, w, nid⟩ := td
  dsimp only at hmode
  subst hmode
  cases sg <;> cases sgs <;> cases tc <;> cases sgc <;>
    simp [EcsTask.construct] at hok <;>
    (subst hok; exact ⟨rfl, rfl, rfl, rfl⟩)

/-- Witness for claim C10 at the concrete awsvpc input. -/
theorem awsvpc_sg_never_absent_witness :
    awsVpcTask.securityGroups.isSome
    ∧ awsVpcTask.securityGroups = (match awsVpcProps.securityGroups with
        | some gs => some gs
        | none => Option.map singletonList awsVpcTask.securityGroup)
    ∧ ((EcsTask.bind awsVpcTask).ecsParameters.networkConfiguration).isSome
    ∧ Option.map AwsVpcConfiguration.securityGroups
        ((EcsTask.bind awsVpcTask).ecsParameters.networkConfiguration) =
      some (Option.map (List.map SecurityGroup.securityGroupId)
              awsVpcTask.securityGroups) :=
  awsvpc_sg_never_absent awsVpcProps awsVpcTask rfl (by rfl)
